import Mathlib

/-!
Verification development for the ezwebsocket library core
(src/lib/ezwebsocket.c, src/lib/utils/utf8.c, src/lib/utils/base64.c).

The C code is shallowly embedded: machine bytes are Nat values below 256,
byte buffers are List Nat, C enums are inductive types or Nat constants,
and the stateful connection handlers are pure functions that take and
return the relevant connection fields.  Out-of-bounds reads made by the C
code are made visible by returning none from an Option-valued function.
-/

set_option maxRecDepth 10000

namespace Ezws

/-- Connection role, mirroring enum ws_type of ezwebsocket.c. -/
inductive WsType where
  | client
  | server
deriving DecidableEq, Repr, BEq

/-- Connection state, mirroring enum ws_state of ezwebsocket.c. -/
inductive WsState where
  | handshake
  | connected
  | closed
deriving DecidableEq, Repr, BEq

/-- Data type of a message, mirroring enum ws_data_type of ezwebsocket.h
(WS_DATA_TYPE_TEXT = 0, WS_DATA_TYPE_BINARY = 1). -/
inductive WsDataType where
  | text
  | binary
deriving DecidableEq, Repr, BEq

/-- Numeric value of WS_DATA_TYPE_TEXT in ezwebsocket.h. -/
def WS_DATA_TYPE_TEXT : Nat := 0

/-- Numeric value of WS_DATA_TYPE_BINARY in ezwebsocket.h. -/
def WS_DATA_TYPE_BINARY : Nat := 1

/-- Websocket opcodes from enum ws_opcode of ezwebsocket.c. -/
def WS_OPCODE_CONTINUATION : Nat := 0x00

/-- Opcode of a text frame. -/
def WS_OPCODE_TEXT : Nat := 0x01

/-- Opcode of a binary frame. -/
def WS_OPCODE_BINARY : Nat := 0x02

/-- Opcode of a close frame. -/
def WS_OPCODE_DISCONNECT : Nat := 0x08

/-- Opcode of a ping frame. -/
def WS_OPCODE_PING : Nat := 0x09

/-- Opcode of a pong frame. -/
def WS_OPCODE_PONG : Nat := 0x0A

/-- Close codes used by the state machine (enum ws_close_code of ezwebsocket.h). -/
def WS_CLOSE_CODE_NORMAL : Nat := 1000

/-- Close code for protocol errors. -/
def WS_CLOSE_CODE_PROTOCOL_ERROR : Nat := 1002

/-- Close code for invalid (non-UTF-8) data. -/
def WS_CLOSE_CODE_INVALID_DATA : Nat := 1007

/-- Maximum payload length representable without the extended length field
(MAX_DEFAULT_PAYLOAD_LENGTH in ezwebsocket.c). -/
def MAX_DEFAULT_PAYLOAD_LENGTH : Nat := 125

/-- Fragmented-message timeout in seconds (MESSAGE_TIMEOUT_S in ezwebsocket.c). -/
def MESSAGE_TIMEOUT_S : Int := 30

/-- Result states of the incremental UTF-8 validator (enum utf8_state of
utils/utf8.h; the header itself is not in the sources, only utils/utf8.c). -/
inductive Utf8State where
  | ok
  | busy
  | fail
deriving DecidableEq, Repr, BEq

/-- Modelled from the spec: numeric truthiness of an utf8_state value.  The
header utils/utf8.h declaring the enum constants is not among the sources;
the spec lists the states as OK, BUSY, FAIL, so OK is the first enumerator,
hence 0 and falsy in C, and every other state is truthy. -/
def utf8StateTruthy (s : Utf8State) : Bool :=
  s != Utf8State.ok

/-- Embedding of utf8_validate_single of utils/utf8.c.  The argument c is
the byte (the C casts the char argument to unsigned char, modelled by the
mod 256); handle is the 64-bit unsigned validator state, whose subtraction
wraps modulo 2 to the 64 as in C. -/
def utf8_validate_single (c : Nat) (handle : Nat) : Utf8State × Nat :=
  let data := c % 256
  if handle = 0 then
    if data ≤ 0x7F then (Utf8State.ok, handle)
    else if data &&& 0xE0 = 0xC0 then
      let h := ((data &&& 0x1F) <<< 6) ||| 0x50000000
      if h &&& 0x0FFFFFFF > 0x10FFFF then (Utf8State.fail, h) else (Utf8State.busy, h)
    else if data &&& 0xF0 = 0xE0 then
      let h := ((data &&& 0x0F) <<< 12) ||| 0xa0000000
      if h &&& 0x0FFFFFFF > 0x10FFFF then (Utf8State.fail, h) else (Utf8State.busy, h)
    else if data &&& 0xF8 = 0xF0 then
      let h := ((data &&& 0x07) <<< 18) ||| 0xf0000000
      if h &&& 0x0FFFFFFF > 0x10FFFF then (Utf8State.fail, h) else (Utf8State.busy, h)
    else (Utf8State.fail, handle)
  else
    if data &&& 0xC0 ≠ 0x80 then (Utf8State.fail, handle)
    else
      let h1 := (handle + (2 ^ 64 - 0x40000000)) % 2 ^ 64
      let h2 := h1 ||| ((data &&& 0x3F) <<< (6 * (h1 >>> 30)))
      if h2 &&& 0x0FFFFFFF > 0x10FFFF then (Utf8State.fail, h2)
      else if h2 &&& 0xC0000000 ≠ 0 then (Utf8State.busy, h2)
      else if h2 &&& 0x30000000 = 0x30000000 ∧ h2 &&& 0x0FFFFFFF < 65536 then
        (Utf8State.fail, h2)
      else if h2 &&& 0x30000000 = 0x20000000 ∧ h2 &&& 0x0FFFFFFF < 2048 then
        (Utf8State.fail, h2)
      else if h2 &&& 0x30000000 = 0x10000000 ∧ h2 &&& 0x0FFFFFFF < 128 then
        (Utf8State.fail, h2)
      else if h2 &&& 0x0FFFFFFF ≥ 0xD800 ∧ h2 &&& 0x0FFFFFFF ≤ 0xDFFF then
        (Utf8State.fail, h2)
      else (Utf8State.ok, 0)

/-- Embedding of utf8_validate of utils/utf8.c: feed the bytes one by one,
returning FAIL (with the handle at that point) as soon as one byte fails,
and otherwise the state produced by the last byte.  An empty input returns
OK and leaves the handle untouched, exactly as the C loop does. -/
def utf8_validate : List Nat → Nat → Utf8State × Nat
  | [], handle => (Utf8State.ok, handle)
  | c :: rest, handle =>
    match utf8_validate_single c handle with
    | (Utf8State.fail, h) => (Utf8State.fail, h)
    | (st, h) =>
      match rest with
      | [] => (st, h)
      | _ :: _ => utf8_validate rest h

/-- Embedding of checkCloseCode of ezwebsocket.c.  The C switch on the four
reserved enumerators WS_CLOSE_CODE_RESERVED_0..3 compares against the
values 1004, 1005, 1006 and 1015 from ezwebsocket.h; the single ampersand
in the 1012..1014 range test operates on 0/1 comparison results and agrees
with logical conjunction. -/
def checkCloseCode (code : Nat) : Bool :=
  if code < 1000 then false
  else if code > 4999 then false
  else if 1012 ≤ code ∧ code ≤ 1014 then false
  else if 1016 ≤ code ∧ code < 3000 then false
  else if code = 1004 ∨ code = 1005 ∨ code = 1006 ∨ code = 1015 then false
  else true

/-- The parsed websocket frame header, mirroring struct ws_header of
ezwebsocket.c.  The mask field holds the four mask bytes when masked is
true; it is left empty otherwise (undefined in the C struct). -/
structure WsHeader where
  fin : Bool
  opcode : Nat
  payloadLength : Nat
  masked : Bool
  mask : List Nat
  payloadStartOffset : Nat
deriving DecidableEq, Repr

/-- The three outcomes of parseWebsocketHeader: the C returns -1 (error),
0 (message too short, need more bytes) or 1 (header parsed). -/
inductive ParseResult where
  | error
  | needMore
  | header (h : WsHeader)
deriving DecidableEq, Repr

/-- Opcode switch of parseWebsocketHeader: the six known opcodes are
accepted and every other value falls into the default branch. -/
def isKnownOpcode (opcode : Nat) : Bool :=
  opcode = WS_OPCODE_CONTINUATION ∨ opcode = WS_OPCODE_TEXT ∨ opcode = WS_OPCODE_BINARY ∨
    opcode = WS_OPCODE_PING ∨ opcode = WS_OPCODE_PONG ∨ opcode = WS_OPCODE_DISCONNECT

/-- Accumulation loop of parseWebsocketHeader for the extended payload
length: for each extension byte the length is shifted left by 8 and the
byte is or-ed in.  The argument is the slice data[2 .. 2+lengthNumBytes). -/
def extPayloadLen (bytes : List Nat) : Nat :=
  bytes.foldl (fun pl b => (pl <<< 8) ||| b) 0

/-- Tail of parseWebsocketHeader after the payload length is known: read
the four mask bytes when the masked bit is set (guarded by a length check)
and compute the payload start offset. -/
def finishParseHeader (data : List Nat) (fin : Bool) (opcode : Nat) (masked : Bool)
    (pl lengthNumBytes : Nat) : Option ParseResult :=
  if masked then
    if data.length < 2 + lengthNumBytes + 4 then some ParseResult.needMore
    else
      some (ParseResult.header
        { fin := fin, opcode := opcode, payloadLength := pl, masked := true,
          mask := [data.getD (2 + lengthNumBytes) 0, data.getD (2 + lengthNumBytes + 1) 0,
                   data.getD (2 + lengthNumBytes + 2) 0, data.getD (2 + lengthNumBytes + 3) 0],
          payloadStartOffset := 2 + lengthNumBytes + 4 })
  else
    some (ParseResult.header
      { fin := fin, opcode := opcode, payloadLength := pl, masked := false,
        mask := [], payloadStartOffset := 2 + lengthNumBytes })

/-- Embedding of parseWebsocketHeader of ezwebsocket.c.  The C reads
data[0] and data[1] before any length check; those two reads are modelled
with get?, so an input too short for them yields none (an out-of-bounds
read).  All later reads sit behind the length checks of the C code and are
in bounds, so they use getD. -/
def parseWebsocketHeader (data : List Nat) : Option ParseResult :=
  match data.get? 0 with
  | none => none
  | some b0 =>
    let fin : Bool := b0 &&& 0x80 ≠ 0
    let opcode := b0 &&& 0x0F
    if b0 &&& 0x70 ≠ 0 then some ParseResult.error
    else if ¬ isKnownOpcode opcode then some ParseResult.error
    else
      match data.get? 1 with
      | none => none
      | some b1 =>
        let masked : Bool := b1 &&& 0x80 ≠ 0
        if data.length < 2 then some ParseResult.needMore
        else if b1 &&& 0x7F ≤ MAX_DEFAULT_PAYLOAD_LENGTH then
          finishParseHeader data fin opcode masked (b1 &&& 0x7F) 0
        else if b1 &&& 0x7F = 126 then
          if data.length < 4 then some ParseResult.needMore
          else finishParseHeader data fin opcode masked (extPayloadLen ((data.drop 2).take 2)) 2
        else
          if data.length < 10 then some ParseResult.needMore
          else finishParseHeader data fin opcode masked (extPayloadLen ((data.drop 2).take 8)) 8

/-- Embedding of createWebsocketHeader of ezwebsocket.c: emit the first
byte from fin and opcode, the shortest length encoding (with the mask bit
or-ed into the second byte), and the four mask bytes big-endian when
masked. -/
def createWebsocketHeader (opcode : Nat) (fin masked : Bool) (mask : Nat) (len : Nat) :
    List Nat :=
  let b0 := (if fin then 0x80 else 0x00) ||| (opcode &&& 0x0F)
  let maskBit := if masked then 0x80 else 0x00
  let core :=
    if len ≤ MAX_DEFAULT_PAYLOAD_LENGTH then [b0, len ||| maskBit]
    else if len ≤ 0xFFFF then [b0, 126 ||| maskBit, len >>> 8, len &&& 0xFF]
    else [b0, 127 ||| maskBit] ++ ((List.range 8).map fun i => (len >>> ((7 - i) * 8)) &&& 0xFF)
  core ++ (if masked then (List.range 4).map (fun i => (mask >>> ((3 - i) * 8)) &&& 0xFF) else [])

/-- Big-endian assembly of the four decoded mask bytes into the 32-bit
mask word consumed by createWebsocketHeader; inverse of the big-endian
mask byte emission of createWebsocketHeader. -/
def maskToNat (mask : List Nat) : Nat :=
  mask.foldl (fun acc b => (acc <<< 8) ||| b) 0

/-- Embedding of copyMasked of ezwebsocket.c: XOR the bytes with the mask
bytes taken big-endian from the 32-bit mask word, cycling with period 4. -/
def copyMasked (src : List Nat) (mask : Nat) : List Nat :=
  let byteMask := [(mask >>> 24) &&& 0xFF, (mask >>> 16) &&& 0xFF,
                   (mask >>> 8) &&& 0xFF, (mask >>> 0) &&& 0xFF]
  src.mapIdx fun i b => b ^^^ byteMask.getD (i % 4) 0

/-- Per-connection message reassembly state, mirroring struct last_message
of ezwebsocket.c.  data is none when the C pointer is NULL. -/
structure LastMessage where
  dataType : WsDataType
  firstReceived : Bool
  complete : Bool
  utf8Handle : Nat
  len : Nat
  data : Option (List Nat)
deriving DecidableEq, Repr

/-- The last_message contents of a freshly opened connection, as zeroed by
websocketServer_onOpen (memset to zero: data type TEXT = 0, flags false,
handle and length 0, data NULL). -/
def initLastMessage : LastMessage :=
  { dataType := WsDataType.text, firstReceived := false, complete := false,
    utf8Handle := 0, len := 0, data := none }

/-- Message handler outcome, mirroring enum ws_msg_state of ezwebsocket.c. -/
inductive WsMsgState where
  | error
  | incomplete
  | noUserData
  | userData
deriving DecidableEq, Repr

/-- Externally visible side effects of the connected-state handlers:
websocket_closeConnection with a code (which sends a CLOSE frame carrying
the code and closes the transport), a PONG reply, the raw CLOSE echo of
handleDisconnectMessage followed by a transport close, and the delivery of
a complete message to the user callback. -/
inductive ConnEvent where
  | closeConn (code : Nat)
  | sendPong (masked : Bool) (payload : List Nat)
  | echoClose (masked : Bool) (payload : List Nat)
  | deliver (dataType : WsDataType) (data : List Nat) (len : Nat)
deriving DecidableEq, Repr

/-- Effect of websocket_closeConnection of ezwebsocket.c on the
last_message fields: the buffer is freed and nulled, the length zeroed and
the complete flag cleared (firstReceived and utf8Handle are untouched). -/
def closeConnLm (lm : LastMessage) : LastMessage :=
  { lm with data := none, len := 0, complete := false }

/-- Unmasking loop of the inbound handlers of ezwebsocket.c: byte i of the
payload is XORed with header mask byte i mod 4. -/
def maskBytes (mask : List Nat) (payload : List Nat) : List Nat :=
  payload.mapIdx fun i b => b ^^^ mask.getD (i % 4) 0

/-- Embedding of handleFirstMessage of ezwebsocket.c.  The payload argument
stands for the slice data[payloadStartOffset .. payloadStartOffset +
payloadLength) whose presence parseMessage has checked, so
payload.length equals the payloadLength field of the header.  Allocation
is assumed to succeed (the refcnt_allocate failure branch is not
modelled). -/
def handleFirstMessage (wsType : WsType) (lm : LastMessage) (hdr : WsHeader)
    (payload : List Nat) : WsMsgState × LastMessage × Option ConnEvent :=
  if !hdr.masked && (wsType == WsType.server) then
    (WsMsgState.error, closeConnLm lm, some (ConnEvent.closeConn WS_CLOSE_CODE_PROTOCOL_ERROR))
  else if lm.data.isSome then
    (WsMsgState.error, closeConnLm lm, some (ConnEvent.closeConn WS_CLOSE_CODE_PROTOCOL_ERROR))
  else
    let newData : Option (List Nat) :=
      if payload.length ≠ 0 then
        some (if hdr.masked then maskBytes hdr.mask payload else payload)
      else lm.data
    let lm1 := { lm with
      data := newData,
      firstReceived := true,
      complete := hdr.fin,
      dataType := if hdr.opcode = WS_OPCODE_TEXT then WsDataType.text else WsDataType.binary,
      len := payload.length }
    if lm1.dataType = WsDataType.text then
      let r := utf8_validate (lm1.data.getD []) 0
      let lm2 := { lm1 with utf8Handle := r.2 }
      if (hdr.fin && r.1 ≠ Utf8State.ok) || (!hdr.fin && r.1 = Utf8State.fail) then
        (WsMsgState.error, closeConnLm lm2, some (ConnEvent.closeConn WS_CLOSE_CODE_INVALID_DATA))
      else if hdr.fin then (WsMsgState.userData, lm2, none)
      else (WsMsgState.noUserData, lm2, none)
    else if hdr.fin then (WsMsgState.userData, lm1, none)
    else (WsMsgState.noUserData, lm1, none)

/-- Embedding of handleContMessage of ezwebsocket.c.  As in
handleFirstMessage the payload argument is the already-sliced frame
payload, and reallocation is assumed to succeed. -/
def handleContMessage (wsType : WsType) (lm : LastMessage) (hdr : WsHeader)
    (payload : List Nat) : WsMsgState × LastMessage × Option ConnEvent :=
  if !lm.firstReceived then
    (WsMsgState.error, closeConnLm lm, some (ConnEvent.closeConn WS_CLOSE_CODE_PROTOCOL_ERROR))
  else if ((wsType != WsType.server) == hdr.masked) then
    (WsMsgState.error, closeConnLm lm, some (ConnEvent.closeConn WS_CLOSE_CODE_PROTOCOL_ERROR))
  else
    let appended := if hdr.masked then maskBytes hdr.mask payload else payload
    let lm1 :=
      if lm.len + payload.length ≠ 0 then
        { lm with data := some (lm.data.getD [] ++ appended) }
      else lm
    let lm2 := { lm1 with complete := hdr.fin }
    if lm2.dataType = WsDataType.text then
      let r := utf8_validate appended lm2.utf8Handle
      let lm3 := { lm2 with utf8Handle := r.2 }
      if (hdr.fin && r.1 ≠ Utf8State.ok) || (!hdr.fin && r.1 = Utf8State.fail) then
        (WsMsgState.error, closeConnLm lm3, some (ConnEvent.closeConn WS_CLOSE_CODE_INVALID_DATA))
      else
        let lm4 := { lm3 with len := lm3.len + payload.length }
        if hdr.fin then (WsMsgState.userData, lm4, none)
        else (WsMsgState.noUserData, lm4, none)
    else
      let lm4 := { lm2 with len := lm2.len + payload.length }
      if hdr.fin then (WsMsgState.userData, lm4, none)
      else (WsMsgState.noUserData, lm4, none)

/-- Embedding of handlePingMessage of ezwebsocket.c.  The PONG reply send
is assumed to succeed (its transport return code is not modelled), and the
malloc failure branch is skipped. -/
def handlePingMessage (wsType : WsType) (lm : LastMessage) (hdr : WsHeader)
    (payload : List Nat) : WsMsgState × LastMessage × Option ConnEvent :=
  let masked := wsType == WsType.client
  if hdr.fin then
    if payload.length > MAX_DEFAULT_PAYLOAD_LENGTH then
      (WsMsgState.noUserData, closeConnLm lm, some (ConnEvent.closeConn WS_CLOSE_CODE_PROTOCOL_ERROR))
    else if hdr.masked then
      (WsMsgState.noUserData, lm, some (ConnEvent.sendPong masked (maskBytes hdr.mask payload)))
    else
      (WsMsgState.noUserData, lm, some (ConnEvent.sendPong masked payload))
  else
    (WsMsgState.error, closeConnLm lm, some (ConnEvent.closeConn WS_CLOSE_CODE_PROTOCOL_ERROR))

/-- Embedding of handlePongMessage of ezwebsocket.c: a final PONG of at
most 125 payload bytes is ignored, everything else is a protocol error. -/
def handlePongMessage (_wsType : WsType) (lm : LastMessage) (hdr : WsHeader)
    (payload : List Nat) : WsMsgState × LastMessage × Option ConnEvent :=
  if hdr.fin && payload.length ≤ MAX_DEFAULT_PAYLOAD_LENGTH then
    (WsMsgState.noUserData, lm, none)
  else
    (WsMsgState.error, closeConnLm lm, some (ConnEvent.closeConn WS_CLOSE_CODE_PROTOCOL_ERROR))

/-- Embedding of handleDisconnectMessage of ezwebsocket.c.  The payload
argument is the sliced frame payload; in the branch for the correct
inbound mask direction the C copies the (unmasked) payload into
tempBuffer, reads the close code from its first two bytes big-endian, and
validates the remainder as UTF-8; in the wrong-direction branch the raw
payload bytes are validated from offset 2 and echoed.  The echo send and
transport close are the echoClose event. -/
def handleDisconnectMessage (wsType : WsType) (lm : LastMessage) (hdr : WsHeader)
    (payload : List Nat) : WsMsgState × LastMessage × Option ConnEvent :=
  if hdr.fin && payload.length ≠ 1 && payload.length ≤ MAX_DEFAULT_PAYLOAD_LENGTH then
    if payload.length = 0 then
      (WsMsgState.noUserData, closeConnLm lm, some (ConnEvent.closeConn WS_CLOSE_CODE_NORMAL))
    else if hdr.masked == (wsType == WsType.server) then
      let tempBuffer := if hdr.masked then maskBytes hdr.mask payload else payload
      let code := (tempBuffer.getD 0 0 % 256) <<< 8 ||| (tempBuffer.getD 1 0 % 256)
      if checkCloseCode code = false then
        (WsMsgState.error, closeConnLm lm, some (ConnEvent.closeConn WS_CLOSE_CODE_PROTOCOL_ERROR))
      else if payload.length = 2 ∨ (utf8_validate (tempBuffer.drop 2) 0).1 = Utf8State.ok then
        (WsMsgState.noUserData, closeConnLm lm, some (ConnEvent.closeConn WS_CLOSE_CODE_NORMAL))
      else
        (WsMsgState.error, closeConnLm lm, some (ConnEvent.closeConn WS_CLOSE_CODE_INVALID_DATA))
    else
      if payload.length = 2 ∨ utf8StateTruthy (utf8_validate (payload.drop 2) 0).1 then
        (WsMsgState.noUserData, lm, some (ConnEvent.echoClose (wsType == WsType.client) payload))
      else
        (WsMsgState.error, closeConnLm lm, some (ConnEvent.closeConn WS_CLOSE_CODE_INVALID_DATA))
  else
    (WsMsgState.error, closeConnLm lm, some (ConnEvent.closeConn WS_CLOSE_CODE_PROTOCOL_ERROR))

/-- Embedding of parseMessage of ezwebsocket.c: report an incomplete frame
when the buffer does not yet hold the whole payload, otherwise dispatch on
the opcode.  The handlers receive the payload slice
data[payloadStartOffset .. payloadStartOffset + payloadLength). -/
def parseMessage (wsType : WsType) (lm : LastMessage) (msg : List Nat) (hdr : WsHeader) :
    WsMsgState × LastMessage × Option ConnEvent :=
  if msg.length < hdr.payloadStartOffset + hdr.payloadLength then
    (WsMsgState.incomplete, lm, none)
  else
    let payload := (msg.drop hdr.payloadStartOffset).take hdr.payloadLength
    if hdr.opcode = WS_OPCODE_TEXT ∨ hdr.opcode = WS_OPCODE_BINARY then
      handleFirstMessage wsType lm hdr payload
    else if hdr.opcode = WS_OPCODE_CONTINUATION then
      handleContMessage wsType lm hdr payload
    else if hdr.opcode = WS_OPCODE_PING then
      handlePingMessage wsType lm hdr payload
    else if hdr.opcode = WS_OPCODE_PONG then
      handlePongMessage wsType lm hdr payload
    else if hdr.opcode = WS_OPCODE_DISCONNECT then
      handleDisconnectMessage wsType lm hdr payload
    else
      (WsMsgState.error, lm, none)

/-- Embedding of the WS_STATE_CONNECTED branch of websocket_onMessage of
ezwebsocket.c.  Inputs are the connection role, the last_message fields,
the stored timeout timespec, the accumulated inbound bytes and the current
monotonic time; the result is the number of consumed bytes, the new
last_message and timeout, and the emitted events, or none when the header
parser made an out-of-bounds read. -/
def websocket_onMessage_connected (wsType : WsType) (lm : LastMessage)
    (tmo : Int × Int) (msg : List Nat) (now : Int × Int) :
    Option (Nat × LastMessage × (Int × Int) × List ConnEvent) :=
  match parseWebsocketHeader msg with
  | none => none
  | some ParseResult.error =>
    some (msg.length, closeConnLm lm, tmo, [ConnEvent.closeConn WS_CLOSE_CODE_PROTOCOL_ERROR])
  | some ParseResult.needMore => some (0, lm, tmo, [])
  | some (ParseResult.header hdr) =>
    let r := parseMessage wsType lm msg hdr
    let evs := r.2.2.toList
    match r.1 with
    | WsMsgState.noUserData =>
      some (hdr.payloadStartOffset + hdr.payloadLength, r.2.1, (0, 0), evs)
    | WsMsgState.userData =>
      some (hdr.payloadStartOffset + hdr.payloadLength,
        { r.2.1 with data := none, complete := false, firstReceived := false, len := 0 },
        (0, 0),
        evs ++ [ConnEvent.deliver (r.2.1).dataType ((r.2.1).data.getD []) (r.2.1).len])
    | WsMsgState.incomplete =>
      if tmo.1 = (if tmo.2 = 0 then 1 else 0) then
        some (0, r.2.1, now, evs)
      else if tmo.1 > now.1 + MESSAGE_TIMEOUT_S then
        some (msg.length, { r.2.1 with data := none, len := 0, complete := false },
          (0, 0), evs)
      else
        some (0, r.2.1, tmo, evs)
    | WsMsgState.error =>
      some (msg.length, { r.2.1 with data := none, len := 0, complete := false },
        (0, 0), evs)

/-- The connection fields relevant to the send path, a projection of
struct websocket_connection_desc of ezwebsocket.c. -/
structure WsConnection where
  wsType : WsType
  state : WsState
  lastMessage : LastMessage
  timeout : Int × Int
deriving DecidableEq, Repr

/-- Embedding of sendDataLowLevel of ezwebsocket.c: refuse on a closed
connection, otherwise build the frame (header plus payload, masked with
copyMasked when masked) and hand it to the transport.  The random mask and
the transport return code are parameters; the malloc failure branch is not
modelled.  The result is the return code and the frame given to the
transport. -/
def sendDataLowLevel (conn : WsConnection) (opcode : Nat) (fin masked : Bool)
    (mask : Nat) (msg : List Nat) (sockRc : Int) : Int × Option (List Nat) :=
  if conn.state == WsState.closed then (-1, none)
  else
    let header := createWebsocketHeader opcode fin masked mask msg.length
    let sendBuffer := header ++ (if masked then copyMasked msg mask else msg)
    (sockRc, some sendBuffer)

/-- Embedding of websocket_sendData of ezwebsocket.c.  dataType is the raw
enum value so that the default branch of the C switch is representable.
The result is the return code, the connection fields after the call (the
function never writes them) and the frame handed to the transport. -/
def websocket_sendData (conn : WsConnection) (dataType : Nat) (msg : List Nat)
    (mask : Nat) (sockRc : Int) : Int × WsConnection × Option (List Nat) :=
  let masked := conn.wsType == WsType.client
  if conn.state != WsState.connected then (-1, conn, none)
  else if dataType = WS_DATA_TYPE_BINARY then
    let r := sendDataLowLevel conn WS_OPCODE_BINARY true masked mask msg sockRc
    (r.1, conn, r.2)
  else if dataType = WS_DATA_TYPE_TEXT then
    let r := sendDataLowLevel conn WS_OPCODE_TEXT true masked mask msg sockRc
    (r.1, conn, r.2)
  else (-1, conn, none)

/-- Embedding of websocket_sendDataFragmentedStart of ezwebsocket.c: like
websocket_sendData but with the fin bit cleared. -/
def websocket_sendDataFragmentedStart (conn : WsConnection) (dataType : Nat)
    (msg : List Nat) (mask : Nat) (sockRc : Int) : Int × WsConnection × Option (List Nat) :=
  let masked := conn.wsType == WsType.client
  if conn.state != WsState.connected then (-1, conn, none)
  else if dataType = WS_DATA_TYPE_BINARY then
    let r := sendDataLowLevel conn WS_OPCODE_BINARY false masked mask msg sockRc
    (r.1, conn, r.2)
  else if dataType = WS_DATA_TYPE_TEXT then
    let r := sendDataLowLevel conn WS_OPCODE_TEXT false masked mask msg sockRc
    (r.1, conn, r.2)
  else (-1, conn, none)

/-- Embedding of websocket_sendDataFragmentedCont of ezwebsocket.c: a
CONTINUATION frame with a caller-chosen fin bit. -/
def websocket_sendDataFragmentedCont (conn : WsConnection) (fin : Bool)
    (msg : List Nat) (mask : Nat) (sockRc : Int) : Int × WsConnection × Option (List Nat) :=
  let masked := conn.wsType == WsType.client
  if conn.state != WsState.connected then (-1, conn, none)
  else
    let r := sendDataLowLevel conn WS_OPCODE_CONTINUATION fin masked mask msg sockRc
    (r.1, conn, r.2)

/-- Left rotation of a 32-bit word, used by SHA-1. -/
def rotl32 (x k : Nat) : Nat :=
  ((x <<< k) ||| (x >>> (32 - k))) % 2 ^ 32

/-- Modelled from the spec: SHA-1 padding per FIPS 180-1.  The spec lists
SHA-1 hashing among the assumed external pure functions; the repository
links OpenSSL SHA1 or a utils/sha1.c that is not among the sources. -/
def sha1Pad (msg : List Nat) : List Nat :=
  let len := msg.length
  let padLen := (119 - len % 64) % 64
  msg ++ [0x80] ++ List.replicate padLen 0 ++
    ((List.range 8).map fun i => ((len * 8) >>> ((7 - i) * 8)) &&& 0xFF)

/-- Modelled from the spec: the sixteen 32-bit big-endian words of one
64-byte SHA-1 block. -/
def sha1Words (block : List Nat) : List Nat :=
  (List.range 16).map fun i =>
    ((block.getD (4 * i) 0) <<< 24) ||| ((block.getD (4 * i + 1) 0) <<< 16) |||
      ((block.getD (4 * i + 2) 0) <<< 8) ||| block.getD (4 * i + 3) 0

/-- Modelled from the spec: the SHA-1 message schedule extending 16 words
to 80. -/
def sha1Extend (w : List Nat) : List Nat :=
  (List.range 64).foldl
    (fun ws _ =>
      ws ++ [rotl32 ((ws.getD (ws.length - 3) 0) ^^^ (ws.getD (ws.length - 8) 0) ^^^
        (ws.getD (ws.length - 14) 0) ^^^ (ws.getD (ws.length - 16) 0)) 1])
    w

/-- Modelled from the spec: the SHA-1 round function and constant for
round t. -/
def sha1Round (t : Nat) (b c d : Nat) : Nat × Nat :=
  if t < 20 then ((b &&& c) ||| ((b ^^^ 0xFFFFFFFF) &&& d), 0x5A827999)
  else if t < 40 then (b ^^^ c ^^^ d, 0x6ED9EBA1)
  else if t < 60 then ((b &&& c) ||| (b &&& d) ||| (c &&& d), 0x8F1BBCDC)
  else (b ^^^ c ^^^ d, 0xCA62C1D6)

/-- Modelled from the spec: the SHA-1 compression of one 64-byte block. -/
def sha1Compress (h : Nat × Nat × Nat × Nat × Nat) (block : List Nat) :
    Nat × Nat × Nat × Nat × Nat :=
  let ws := sha1Extend (sha1Words block)
  let r := (List.range 80).foldl
    (fun (st : Nat × Nat × Nat × Nat × Nat) t =>
      let fk := sha1Round t st.2.1 st.2.2.1 st.2.2.2.1
      let temp := (rotl32 st.1 5 + fk.1 + st.2.2.2.2 + fk.2 + ws.getD t 0) % 2 ^ 32
      (temp, st.1, rotl32 st.2.1 30, st.2.2.1, st.2.2.2.1))
    h
  ((h.1 + r.1) % 2 ^ 32, (h.2.1 + r.2.1) % 2 ^ 32, (h.2.2.1 + r.2.2.1) % 2 ^ 32,
    (h.2.2.2.1 + r.2.2.2.1) % 2 ^ 32, (h.2.2.2.2 + r.2.2.2.2) % 2 ^ 32)

/-- Modelled from the spec: SHA-1 of a byte list, returning the 20 digest
bytes. -/
def sha1 (msg : List Nat) : List Nat :=
  let padded := sha1Pad msg
  let blocks := (List.range (padded.length / 64)).map fun i => (padded.drop (64 * i)).take 64
  let h := blocks.foldl sha1Compress (0x67452301, 0xEFCDAB89, 0x98BADCFE, 0x10325476, 0xC3D2E1F0)
  [h.1, h.2.1, h.2.2.1, h.2.2.2.1, h.2.2.2.2].foldl
    (fun acc w => acc ++ ((List.range 4).map fun i => (w >>> ((3 - i) * 8)) &&& 0xFF)) []

/-- The conversion table of utils/base64.c as byte values. -/
def base64_table : List Nat :=
  ("ABCDEFGHIJKLMNOPQRSTUVWXYZabcdefghijklmnopqrstuvwxyz0123456789+/".toList).map Char.toNat

/-- Embedding of the static encode helper of utils/base64.c: three bytes
become four table entries. -/
def b64group (b0 b1 b2 : Nat) : List Nat :=
  [base64_table.getD ((b0 &&& 0xFC) >>> 2) 0,
   base64_table.getD (((b0 &&& 0x03) <<< 4) ||| ((b1 &&& 0xF0) >>> 4)) 0,
   base64_table.getD (((b1 &&& 0x0F) <<< 2) ||| ((b2 &&& 0xC0) >>> 6)) 0,
   base64_table.getD (b2 &&& 0x3F) 0]

/-- Embedding of base64_encode of utils/base64.c: encode the full 3-byte
groups, then encode the zero-padded remainder keeping count plus one
characters and pad with the equals sign. -/
def base64_encode (data : List Nat) : List Nat :=
  let full := (List.range (data.length / 3)).foldl
    (fun acc g => acc ++ b64group (data.getD (3 * g) 0) (data.getD (3 * g + 1) 0)
      (data.getD (3 * g + 2) 0)) []
  let rem := data.length % 3
  if rem = 0 then full
  else
    let i := (data.length / 3) * 3
    let help0 := data.getD i 0
    let help1 := if rem ≥ 2 then data.getD (i + 1) 0 else 0
    full ++ (b64group help0 help1 0).take (rem + 1) ++ List.replicate (3 - rem) 0x3D

/-- The websocket handshake GUID WS_ACCEPT_MAGIC_KEY of ezwebsocket.c as
bytes. -/
def WS_ACCEPT_MAGIC_KEY : List Nat :=
  ("258EAFA5-E914-47DA-95CA-C5AB0DC85B11".toList).map Char.toNat

/-- Embedding of calculateSecWebSocketAccept of ezwebsocket.c: snprintf
into the 64-byte concatString buffer keeps at most 63 characters of the
key followed by the magic GUID; the SHA-1 of that string is base64
encoded. -/
def calculateSecWebSocketAccept (key : List Nat) : List Nat :=
  base64_encode (sha1 ((key ++ WS_ACCEPT_MAGIC_KEY).take 63))

/-- C1: for every 16-bit value c, checkCloseCode returns true if and only
if 1000 ≤ c ≤ 4999, c is not one of 1004, 1005, 1006, 1015, c is not in
the range 1012..1014, and c is not in the range 1016..2999. -/
theorem c1_close_code_validity (c : Fin 65536) :
    checkCloseCode c.val = true ↔
      (1000 ≤ c.val ∧ c.val ≤ 4999 ∧
       c.val ≠ 1004 ∧ c.val ≠ 1005 ∧ c.val ≠ 1006 ∧ c.val ≠ 1015 ∧
       ¬ (1012 ≤ c.val ∧ c.val ≤ 1014) ∧ ¬ (1016 ≤ c.val ∧ c.val ≤ 2999)) := by
  obtain ⟨v, hv⟩ := c
  simp only [checkCloseCode]
  split_ifs <;> simp_all <;> omega

/-- C3: the claim that every first data frame with the wrong mask
direction is closed with 1002 fails on the code: handleFirstMessage only
checks the server-receiving-unmasked direction, so a CLIENT connection
that receives a masked TEXT frame accepts it and delivers the message
instead of closing with 1002 (handleContMessage, in contrast, checks both
directions). -/
theorem c3_first_frame_mask_direction_bug :
    handleFirstMessage WsType.client initLastMessage
        { fin := true, opcode := 1, payloadLength := 1, masked := true,
          mask := [0, 0, 0, 0], payloadStartOffset := 6 } [0x61] =
      (WsMsgState.userData,
        { dataType := WsDataType.text, firstReceived := true, complete := true,
          utf8Handle := 0, len := 1, data := some [0x61] }, none) ∧
    handleFirstMessage WsType.server initLastMessage
        { fin := true, opcode := 1, payloadLength := 1, masked := false,
          mask := [], payloadStartOffset := 2 } [0x61] =
      (WsMsgState.error, initLastMessage,
        some (ConnEvent.closeConn WS_CLOSE_CODE_PROTOCOL_ERROR)) := by decide

/-- C4: the end-of-message part of the claim fails on the code.  A first
TEXT fragment carrying the incomplete UTF-8 sequence 0xC3 leaves the
validator handle nonzero and is accepted mid-message (BUSY), as the claim
allows; but a final empty CONTINUATION fragment with fin set is then also
accepted, because utf8_validate on an empty slice returns OK without
inspecting the handle, so the message is delivered to the user although
the validator handle is not 0 at end of message, where the claim demands a
1007 close. -/
theorem c4_empty_final_fragment_bug :
    (handleFirstMessage WsType.server initLastMessage
        { fin := false, opcode := 1, payloadLength := 1, masked := true,
          mask := [0, 0, 0, 0], payloadStartOffset := 6 } [0xC3]).1 =
      WsMsgState.noUserData ∧
    ((handleFirstMessage WsType.server initLastMessage
        { fin := false, opcode := 1, payloadLength := 1, masked := true,
          mask := [0, 0, 0, 0], payloadStartOffset := 6 } [0xC3]).2.1).utf8Handle =
      0x500000C0 ∧
    handleContMessage WsType.server
        ((handleFirstMessage WsType.server initLastMessage
          { fin := false, opcode := 1, payloadLength := 1, masked := true,
            mask := [0, 0, 0, 0], payloadStartOffset := 6 } [0xC3]).2.1)
        { fin := true, opcode := 0, payloadLength := 0, masked := true,
          mask := [0, 0, 0, 0], payloadStartOffset := 6 } [] =
      (WsMsgState.userData,
        { dataType := WsDataType.text, firstReceived := true, complete := true,
          utf8Handle := 0x500000C0, len := 1, data := some [0xC3] }, none) := by decide

/-- C10: the in-bounds claim fails on the code.  parseWebsocketHeader
reads data[0] and data[1] before the len < 2 check, so an empty input
reads data[0] out of bounds and a 1-byte input with a valid first byte
(0x81, FIN plus TEXT) reads data[1] out of bounds (both modelled as none);
moreover a 1-byte input whose first byte has reserved bits set (0xF1)
returns Error rather than the need-more result the claim promises for
every input of length 0 or 1. -/
theorem c10_short_input_byte_reads_bug :
    parseWebsocketHeader [] = none ∧
    parseWebsocketHeader [0x81] = none ∧
    parseWebsocketHeader [0xF1] = some ParseResult.error := by decide

/-- C9: the fragment-reassembly timeout of the claim never happens in the
code.  On an incomplete frame with the cleared initial timeout (0, 0) the
condition tv_sec == (tv_nsec == 0) compares 0 with 1 and fails, so the
time of the first event is never recorded; and the discard test compares
the recorded seconds against now + 30 in the wrong direction, so with any
recorded time that is not in the far future of the clock the partial
message is never discarded, here shown with a recorded time of 100 s and a
current time of 100000 s. -/
theorem c9_fragment_timeout_never_fires :
    (∀ nowSec nowNsec : Nat,
      websocket_onMessage_connected WsType.server initLastMessage (0, 0) [0x01, 0x05]
        ((nowSec : Int), (nowNsec : Int)) = some (0, initLastMessage, (0, 0), [])) ∧
    websocket_onMessage_connected WsType.server initLastMessage (100, 5) [0x01, 0x05]
      (100000, 0) = some (0, initLastMessage, (100, 5), []) := by
  have hp : parseWebsocketHeader [0x01, 0x05] =
      some (ParseResult.header
        { fin := false, opcode := 1, payloadLength := 5, masked := false,
          mask := [], payloadStartOffset := 2 }) := by decide
  have hm : parseMessage WsType.server initLastMessage [0x01, 0x05]
      { fin := false, opcode := 1, payloadLength := 5, masked := false,
        mask := [], payloadStartOffset := 2 } =
      (WsMsgState.incomplete, initLastMessage, none) := by decide
  constructor
  · intro nowSec nowNsec
    simp only [websocket_onMessage_connected, hp, hm]
    have h30 : ¬ ((0 : Int) > (nowSec : Int) + MESSAGE_TIMEOUT_S) := by
      simp only [MESSAGE_TIMEOUT_S]
      omega
    norm_num [h30]
  · decide

/-- C8: every send entry point refuses with -1 and without side effects
when the connection state is not CONNECTED: the connection fields
(including the partial-message buffer) are returned unchanged and no frame
is handed to the transport. -/
theorem c8_send_refused_when_not_connected (conn : WsConnection) (dataType : Nat)
    (msg : List Nat) (mask : Nat) (sockRc : Int) (fin : Bool)
    (h : conn.state ≠ WsState.connected) :
    websocket_sendData conn dataType msg mask sockRc = (-1, conn, none) ∧
    websocket_sendDataFragmentedStart conn dataType msg mask sockRc = (-1, conn, none) ∧
    websocket_sendDataFragmentedCont conn fin msg mask sockRc = (-1, conn, none) := by
  have hb : (conn.state != WsState.connected) = true := by
    cases hs : conn.state
    · rfl
    · exact absurd hs h
    · rfl
  refine ⟨?_, ?_, ?_⟩ <;>
    simp [websocket_sendData, websocket_sendDataFragmentedStart,
      websocket_sendDataFragmentedCont, hb]

/-- Witness for C8 at a concrete closed server connection. -/
theorem c8_send_refused_witness :
    websocket_sendData
        { wsType := WsType.server, state := WsState.closed,
          lastMessage := initLastMessage, timeout := (0, 0) } 0 [1, 2] 0 0 =
      (-1, { wsType := WsType.server, state := WsState.closed,
             lastMessage := initLastMessage, timeout := (0, 0) }, none) ∧
    websocket_sendDataFragmentedStart
        { wsType := WsType.server, state := WsState.closed,
          lastMessage := initLastMessage, timeout := (0, 0) } 0 [1, 2] 0 0 =
      (-1, { wsType := WsType.server, state := WsState.closed,
             lastMessage := initLastMessage, timeout := (0, 0) }, none) ∧
    websocket_sendDataFragmentedCont
        { wsType := WsType.server, state := WsState.closed,
          lastMessage := initLastMessage, timeout := (0, 0) } true [1, 2] 0 0 =
      (-1, { wsType := WsType.server, state := WsState.closed,
             lastMessage := initLastMessage, timeout := (0, 0) }, none) :=
  c8_send_refused_when_not_connected
    { wsType := WsType.server, state := WsState.closed,
      lastMessage := initLastMessage, timeout := (0, 0) } 0 [1, 2] 0 0 true (by decide)

/-- Unmasking with maskBytes never changes the payload length. -/
theorem maskBytes_length (mask payload : List Nat) :
    (maskBytes mask payload).length = payload.length := by
  simp [maskBytes]

/-- C2: payload rules for an inbound CLOSE frame in state CONNECTED with
fin set, payload at most 125 bytes and the correct inbound mask direction
(masked exactly when the receiver is the server): an empty payload closes
with 1000; a 1-byte payload is a protocol error 1002; a payload of 2 or
more bytes whose first two (unmasked) bytes, read big-endian, fail
checkCloseCode closes with 1002; and with a valid close code, a payload
whose bytes after the first two are not valid UTF-8 closes with 1007. -/
theorem c2_close_payload_rules (wsType : WsType) (masked : Bool)
    (mask payload : List Nat) (lm : LastMessage)
    (hdir : masked = (wsType == WsType.server))
    (hlen : payload.length ≤ 125) :
    (payload.length = 0 →
      handleDisconnectMessage wsType lm
          { fin := true, opcode := WS_OPCODE_DISCONNECT, payloadLength := payload.length,
            masked := masked, mask := mask, payloadStartOffset := 2 } payload =
        (WsMsgState.noUserData, closeConnLm lm,
          some (ConnEvent.closeConn WS_CLOSE_CODE_NORMAL))) ∧
    (payload.length = 1 →
      handleDisconnectMessage wsType lm
          { fin := true, opcode := WS_OPCODE_DISCONNECT, payloadLength := payload.length,
            masked := masked, mask := mask, payloadStartOffset := 2 } payload =
        (WsMsgState.error, closeConnLm lm,
          some (ConnEvent.closeConn WS_CLOSE_CODE_PROTOCOL_ERROR))) ∧
    (2 ≤ payload.length →
      checkCloseCode
          (((if masked then maskBytes mask payload else payload).getD 0 0 % 256) <<< 8 |||
            ((if masked then maskBytes mask payload else payload).getD 1 0 % 256)) = false →
      handleDisconnectMessage wsType lm
          { fin := true, opcode := WS_OPCODE_DISCONNECT, payloadLength := payload.length,
            masked := masked, mask := mask, payloadStartOffset := 2 } payload =
        (WsMsgState.error, closeConnLm lm,
          some (ConnEvent.closeConn WS_CLOSE_CODE_PROTOCOL_ERROR))) ∧
    (2 ≤ payload.length →
      checkCloseCode
          (((if masked then maskBytes mask payload else payload).getD 0 0 % 256) <<< 8 |||
            ((if masked then maskBytes mask payload else payload).getD 1 0 % 256)) = true →
      (utf8_validate ((if masked then maskBytes mask payload else payload).drop 2) 0).1 ≠
        Utf8State.ok →
      handleDisconnectMessage wsType lm
          { fin := true, opcode := WS_OPCODE_DISCONNECT, payloadLength := payload.length,
            masked := masked, mask := mask, payloadStartOffset := 2 } payload =
        (WsMsgState.error, closeConnLm lm,
          some (ConnEvent.closeConn WS_CLOSE_CODE_INVALID_DATA))) := by
  have hd : (masked == (wsType == WsType.server)) = true := by
    rw [hdir]
    exact beq_self_eq_true _
  refine ⟨?_, ?_, ?_, ?_⟩
  · intro h0
    simp [handleDisconnectMessage, h0]
  · intro h1
    simp [handleDisconnectMessage, h1]
  · intro h2 hcc
    have hne1 : payload.length ≠ 1 := by omega
    have hne0 : payload.length ≠ 0 := by omega
    simp at hcc
    simp [handleDisconnectMessage, MAX_DEFAULT_PAYLOAD_LENGTH, hd, hne1, hne0, hlen, hcc]
  · intro h2 hcc hut
    have hlen2 : (if masked then maskBytes mask payload else payload).length =
        payload.length := by
      split
      · exact maskBytes_length mask payload
      · rfl
    have hne1 : payload.length ≠ 1 := by omega
    have hne0 : payload.length ≠ 0 := by omega
    have hne2 : payload.length ≠ 2 := by
      intro he
      apply hut
      have hdrop : (if masked then maskBytes mask payload else payload).drop 2 = [] := by
        apply List.eq_nil_of_length_eq_zero
        simp [hlen2, he]
      rw [hdrop]
      rfl
    simp at hcc
    simp [handleDisconnectMessage, MAX_DEFAULT_PAYLOAD_LENGTH, hd, hne1, hne0, hne2,
      hlen, hcc, hut]

/-- Witness for C2: a server receiving a masked, empty CLOSE payload
replies with a CLOSE of code 1000. -/
theorem c2_close_payload_rules_witness :
    handleDisconnectMessage WsType.server initLastMessage
        { fin := true, opcode := WS_OPCODE_DISCONNECT, payloadLength := 0,
          masked := true, mask := [1, 2, 3, 4], payloadStartOffset := 2 } [] =
      (WsMsgState.noUserData, closeConnLm initLastMessage,
        some (ConnEvent.closeConn WS_CLOSE_CODE_NORMAL)) :=
  (c2_close_payload_rules WsType.server true [1, 2, 3, 4] [] initLastMessage
    (by decide) (by decide)).1 rfl

/-- Condition describing the error cases of parseWebsocketHeader: the
first byte exists and either has one of the reserved bits RSV1..3
(bits 6..4) set or carries an opcode outside the six known values in its
low 4 bits. -/
def headerFirstByteInvalid (data : List Nat) : Bool :=
  match data.get? 0 with
  | none => false
  | some b0 => decide (b0 &&& 0x70 ≠ 0) || ! isKnownOpcode (b0 &&& 0x0F)

/-- After the first-byte checks, the tail of the header parser can only
report need-more or a parsed header, never an error. -/
theorem finishParseHeader_ne_error (data : List Nat) (fin : Bool) (opcode : Nat)
    (masked : Bool) (pl k : Nat) :
    finishParseHeader data fin opcode masked pl k ≠ some ParseResult.error := by
  simp only [finishParseHeader]
  split_ifs <;> simp

/-- With valid reserved bits and a known opcode in the first byte, the
header parser never reports an error on any input. -/
theorem parse_ne_error_of_valid_first (b0 : Nat) (rest : List Nat)
    (hr : ¬ b0 &&& 0x70 ≠ 0) (hk : isKnownOpcode (b0 &&& 0x0F) = true) :
    parseWebsocketHeader (b0 :: rest) ≠ some ParseResult.error := by
  simp only [parseWebsocketHeader, List.get?]
  rw [if_neg hr, if_neg (not_not_intro hk)]
  cases rest with
  | nil => simp
  | cons b1 rest2 =>
    simp only [List.get?]
    split_ifs <;>
      first
        | exact finishParseHeader_ne_error _ _ _ _ _ _
        | simp

/-- C6: the frame-header decoder returns an error exactly when the first
byte has a reserved bit (bits 6..4) set or its low 4 bits are not one of
the six opcodes 0x0, 0x1, 0x2, 0x8, 0x9, 0xA; and in state CONNECTED such
a decode error makes the connection close with code 1002, consuming the
whole input. -/
theorem c6_decode_error_exactly_on_bad_first_byte :
    (∀ data : List Nat,
      parseWebsocketHeader data = some ParseResult.error ↔
        headerFirstByteInvalid data = true) ∧
    (∀ (wsType : WsType) (lm : LastMessage) (tmo : Int × Int) (msg : List Nat)
        (now : Int × Int),
      parseWebsocketHeader msg = some ParseResult.error →
      websocket_onMessage_connected wsType lm tmo msg now =
        some (msg.length, closeConnLm lm, tmo,
          [ConnEvent.closeConn WS_CLOSE_CODE_PROTOCOL_ERROR])) := by
  constructor
  · intro data
    rcases data with _ | ⟨b0, rest⟩
    · simp [parseWebsocketHeader, headerFirstByteInvalid]
    · by_cases hr : b0 &&& 0x70 ≠ 0
      · simp [parseWebsocketHeader, headerFirstByteInvalid, List.get?, hr]
      · by_cases hk : isKnownOpcode (b0 &&& 0x0F) = true
        · have hne := parse_ne_error_of_valid_first b0 rest hr hk
          simp [headerFirstByteInvalid, List.get?, not_ne_iff.mp hr, hk, hne]
        · simp at hk
          simp [parseWebsocketHeader, headerFirstByteInvalid, List.get?, hr, hk]
  · intro wsType lm tmo msg now hp
    simp only [websocket_onMessage_connected, hp]

/-- Witness for C6: a first byte with RSV bits set (0x73) is rejected, and
in the connected state the input is consumed with a 1002 close. -/
theorem c6_decode_error_witness :
    parseWebsocketHeader [0x73, 0x00] = some ParseResult.error ∧
    websocket_onMessage_connected WsType.server initLastMessage (3, 4) [0x73, 0x00] (0, 0) =
      some (2, closeConnLm initLastMessage, (3, 4),
        [ConnEvent.closeConn WS_CLOSE_CODE_PROTOCOL_ERROR]) := by
  constructor
  · exact (c6_decode_error_exactly_on_bad_first_byte.1 [0x73, 0x00]).mpr (by decide)
  · exact c6_decode_error_exactly_on_bad_first_byte.2 WsType.server initLastMessage
      (3, 4) [0x73, 0x00] (0, 0) (by decide)

/-- C7 counterexample: the claim fails for keys longer than 27 bytes
because calculateSecWebSocketAccept builds the concatenation in a 64-byte
buffer with snprintf, which truncates it to 63 characters; for a 28-byte
key the hashed string loses the last character of the GUID, so the result
differs from the base64-encoded SHA-1 of the full concatenation. -/
theorem c7_accept_key_truncation_counterexample :
    calculateSecWebSocketAccept (List.replicate 28 65) ≠
      base64_encode (sha1 (List.replicate 28 65 ++ WS_ACCEPT_MAGIC_KEY)) := by decide

/-- C7 (amended): for every client key of at most 27 bytes (so that key
plus the 36-byte GUID fits the 63 characters kept by snprintf, which
covers the 24-byte keys produced by the handshake), the accept-key
computation returns the base64 encoding of the SHA-1 hash of the key
concatenated with the GUID; in particular the RFC 6455 sample key maps to
the documented accept value. -/
theorem c7_accept_key_derivation :
    (∀ key : List Nat, key.length ≤ 27 →
      calculateSecWebSocketAccept key =
        base64_encode (sha1 (key ++ WS_ACCEPT_MAGIC_KEY))) ∧
    calculateSecWebSocketAccept (("dGhlIHNhbXBsZSBub25jZQ==".toList).map Char.toNat) =
      ("s3pPLMBiTxaQ9kYGzzhZRbK+xOo=".toList).map Char.toNat := by
  constructor
  · intro key hk
    have hmagic : WS_ACCEPT_MAGIC_KEY.length = 36 := by decide
    have hfit : (key ++ WS_ACCEPT_MAGIC_KEY).length ≤ 63 := by
      rw [List.length_append, hmagic]
      omega
    unfold calculateSecWebSocketAccept
    rw [List.take_of_length_le hfit]
  · decide

/-- Witness for C7: the theorem applied to the 24-byte RFC 6455 sample
key. -/
theorem c7_accept_key_derivation_witness :
    calculateSecWebSocketAccept (("dGhlIHNhbXBsZSBub25jZQ==".toList).map Char.toNat) =
      base64_encode (sha1 ((("dGhlIHNhbXBsZSBub25jZQ==".toList).map Char.toNat) ++
        WS_ACCEPT_MAGIC_KEY)) :=
  c7_accept_key_derivation.1 (("dGhlIHNhbXBsZSBub25jZQ==".toList).map Char.toNat)
    (by decide)

/-- Shifting left by one byte and or-ing in a byte is base-256 digit
accumulation. -/
theorem shl8_lor (x d : Nat) (hd : d < 256) : (x <<< 8) ||| d = 256 * x + d := by
  have h : d < 2 ^ 8 := hd
  rw [Nat.shiftLeft_eq, Nat.mul_comm, ← Nat.mul_add_lt_is_or h x]

/-- The shift-and-or fold over bytes agrees with base-256 accumulation. -/
theorem foldl_shl8 (bs : List Nat) (hb : ∀ b ∈ bs, b < 256) :
    ∀ acc : Nat, bs.foldl (fun pl b => (pl <<< 8) ||| b) acc =
      bs.foldl (fun pl b => 256 * pl + b) acc := by
  induction bs with
  | nil => intro acc; rfl
  | cons b rest ih =>
    intro acc
    simp only [List.foldl]
    rw [shl8_lor acc b (hb b (by simp))]
    exact ih (fun x hx => hb x (by simp [hx])) _

/-- Masking with 0xFF is reduction modulo 256. -/
theorem andFF (x : Nat) : x &&& 0xFF = x % 256 := by
  have h := Nat.and_pow_two_sub_one_eq_mod x 8
  norm_num at h
  exact h

/-- Reassembling the first header byte from fin and opcode reproduces it
when the reserved bits are clear. -/
theorem byte0_roundtrip (b : Nat) (hb : b < 256) (hr : b &&& 0x70 = 0) :
    ((if b &&& 0x80 ≠ 0 then (0x80 : Nat) else 0x00) ||| (b &&& 0x0F &&& 0x0F)) = b := by
  have H : ∀ c : Fin 256, c.val &&& 0x70 = 0 →
      ((if c.val &&& 0x80 ≠ 0 then (0x80 : Nat) else 0x00) |||
        (c.val &&& 0x0F &&& 0x0F)) = c.val := by decide
  exact H ⟨b, hb⟩ hr

/-- A byte with a clear mask bit equals its low seven bits. -/
theorem byte1_low7 (b : Nat) (hb : b < 256) (hm : b &&& 0x80 = 0) : b &&& 0x7F = b := by
  have H : ∀ c : Fin 256, c.val &&& 0x80 = 0 → c.val &&& 0x7F = c.val := by decide
  exact H ⟨b, hb⟩ hm

/-- A byte with a set mask bit is its low seven bits with 0x80 or-ed in. -/
theorem byte1_low7_or (b : Nat) (hb : b < 256) (hm : b &&& 0x80 ≠ 0) :
    (b &&& 0x7F) ||| 0x80 = b := by
  have H : ∀ c : Fin 256, c.val &&& 0x80 ≠ 0 → (c.val &&& 0x7F) ||| 0x80 = c.val := by
    decide
  exact H ⟨b, hb⟩ hm

/-- The only byte with clear mask bit and length field 126 is 126. -/
theorem byte1_eq126 (b : Nat) (hb : b < 256) (h : b &&& 0x7F = 126)
    (hm : b &&& 0x80 = 0) : b = 126 := by
  have H : ∀ c : Fin 256, c.val &&& 0x7F = 126 → c.val &&& 0x80 = 0 → c.val = 126 := by
    decide
  exact H ⟨b, hb⟩ h hm

/-- The only byte with set mask bit and length field 126 is 254. -/
theorem byte1_eq254 (b : Nat) (hb : b < 256) (h : b &&& 0x7F = 126)
    (hm : b &&& 0x80 ≠ 0) : b = 254 := by
  have H : ∀ c : Fin 256, c.val &&& 0x7F = 126 → c.val &&& 0x80 ≠ 0 → c.val = 254 := by
    decide
  exact H ⟨b, hb⟩ h hm

/-- The only byte with clear mask bit and length field 127 is 127. -/
theorem byte1_eq127 (b : Nat) (hb : b < 256) (h : b &&& 0x7F = 127)
    (hm : b &&& 0x80 = 0) : b = 127 := by
  have H : ∀ c : Fin 256, c.val &&& 0x7F = 127 → c.val &&& 0x80 = 0 → c.val = 127 := by
    decide
  exact H ⟨b, hb⟩ h hm

/-- The only byte with set mask bit and length field 127 is 255. -/
theorem byte1_eq255 (b : Nat) (hb : b < 256) (h : b &&& 0x7F = 127)
    (hm : b &&& 0x80 ≠ 0) : b = 255 := by
  have H : ∀ c : Fin 256, c.val &&& 0x7F = 127 → c.val &&& 0x80 ≠ 0 → c.val = 255 := by
    decide
  exact H ⟨b, hb⟩ h hm

/-- C5: for every complete, valid frame header byte string (reserved bits
zero, known opcode, shortest length encoding, all bytes below 256),
re-encoding the decoded fields with createWebsocketHeader reproduces the
original bytes. -/
theorem c5_encode_decode_roundtrip (data : List Nat) (h : WsHeader)
    (hbytes : ∀ b ∈ data, b < 256)
    (hparse : parseWebsocketHeader data = some (ParseResult.header h))
    (hexact : data.length = h.payloadStartOffset)
    (hshort126 : data.getD 1 0 &&& 0x7F = 126 → 125 < h.payloadLength)
    (hshort127 : data.getD 1 0 &&& 0x7F = 127 → 65535 < h.payloadLength) :
    createWebsocketHeader h.opcode h.fin h.masked (maskToNat h.mask) h.payloadLength =
      data := by
  obtain ⟨f, o, p, m, mk, off⟩ := h
  rcases data with _ | ⟨b0, rest0⟩
  · simp [parseWebsocketHeader] at hparse
  rcases rest0 with _ | ⟨b1, rest⟩
  · simp only [parseWebsocketHeader, List.get?] at hparse
    split_ifs at hparse <;> simp_all
  have hb0 : b0 < 256 := hbytes b0 (by simp)
  have hb1 : b1 < 256 := hbytes b1 (by simp)
  simp only [parseWebsocketHeader, List.get?] at hparse
  have hr : ¬ (b0 &&& 0x70 ≠ 0) := by
    intro hcon
    rw [if_pos hcon] at hparse
    exact absurd hparse (by simp)
  rw [if_neg hr] at hparse
  have hr0 : b0 &&& 0x70 = 0 := not_ne_iff.mp hr
  have hk : isKnownOpcode (b0 &&& 0x0F) = true := by
    by_contra hcon
    rw [if_pos hcon] at hparse
    exact absurd hparse (by simp)
  rw [if_neg (not_not_intro hk)] at hparse
  rw [if_neg (by simp : ¬ ((b0 :: b1 :: rest).length < 2))] at hparse
  simp only [List.getD_cons_succ, List.getD_cons_zero] at hshort126 hshort127
  by_cases hle : b1 &&& 0x7F ≤ MAX_DEFAULT_PAYLOAD_LENGTH
  · -- length field at most 125
    rw [if_pos hle] at hparse
    simp only [finishParseHeader] at hparse
    cases hmb : decide (b1 &&& 0x80 ≠ 0) with
    | false =>
      have hm0 : b1 &&& 0x80 = 0 := not_ne_iff.mp (of_decide_eq_false hmb)
      rw [hmb, if_neg (by simp)] at hparse
      simp only [Option.some.injEq, ParseResult.header.injEq, WsHeader.mk.injEq] at hparse
      obtain ⟨hf, ho, hp, hm, hmk, hoff⟩ := hparse
      subst hf ho hp hm hmk hoff
      have hrest : rest = [] := by
        simp only [List.length_cons] at hexact
        exact List.eq_nil_of_length_eq_zero (by omega)
      subst hrest
      simp only [createWebsocketHeader]
      rw [if_pos hle]
      simp only [decide_eq_true_eq, Bool.false_eq_true, if_false, List.append_nil,
        List.cons.injEq, and_true]
      refine ⟨byte0_roundtrip b0 hb0 hr0, ?_⟩
      rw [Nat.or_zero]
      exact byte1_low7 b1 hb1 hm0
    | true =>
      have hm1 : b1 &&& 0x80 ≠ 0 := of_decide_eq_true (hmb ▸ rfl)
      rw [hmb, if_pos rfl] at hparse
      have hl6 : ¬ ((b0 :: b1 :: rest).length < 2 + 0 + 4) := by
        intro hcon
        rw [if_pos hcon] at hparse
        exact absurd hparse (by simp)
      rw [if_neg hl6] at hparse
      simp only [Option.some.injEq, ParseResult.header.injEq, WsHeader.mk.injEq] at hparse
      obtain ⟨hf, ho, hp, hm, hmk, hoff⟩ := hparse
      subst hf ho hp hm hmk hoff
      rcases rest with _ | ⟨m0, _ | ⟨m1, _ | ⟨m2, _ | ⟨m3, r5⟩⟩⟩⟩ <;>
        simp only [List.length_cons, List.length_nil] at hexact <;> try omega
      have hr5 : r5 = [] := by
        exact List.eq_nil_of_length_eq_zero (by omega)
      subst hr5
      have hm0' : m0 < 256 := hbytes m0 (by simp)
      have hm1' : m1 < 256 := hbytes m1 (by simp)
      have hm2' : m2 < 256 := hbytes m2 (by simp)
      have hm3' : m3 < 256 := hbytes m3 (by simp)
      have hMv : maskToNat [List.getD (b0 :: b1 :: m0 :: m1 :: m2 :: m3 :: []) (2 + 0) 0,
          List.getD (b0 :: b1 :: m0 :: m1 :: m2 :: m3 :: []) (2 + 0 + 1) 0,
          List.getD (b0 :: b1 :: m0 :: m1 :: m2 :: m3 :: []) (2 + 0 + 2) 0,
          List.getD (b0 :: b1 :: m0 :: m1 :: m2 :: m3 :: []) (2 + 0 + 3) 0] =
          256 * (256 * (256 * m0 + m1) + m2) + m3 := by
        have hg : [List.getD (b0 :: b1 :: m0 :: m1 :: m2 :: m3 :: []) (2 + 0) 0,
            List.getD (b0 :: b1 :: m0 :: m1 :: m2 :: m3 :: []) (2 + 0 + 1) 0,
            List.getD (b0 :: b1 :: m0 :: m1 :: m2 :: m3 :: []) (2 + 0 + 2) 0,
            List.getD (b0 :: b1 :: m0 :: m1 :: m2 :: m3 :: []) (2 + 0 + 3) 0] =
            [m0, m1, m2, m3] := by
          simp [List.getD]
        rw [hg]
        unfold maskToNat
        rw [foldl_shl8 [m0, m1, m2, m3] (by
          intro b hb
          simp at hb
          rcases hb with hcase | hcase | hcase | hcase <;> omega) 0]
        simp [List.foldl]
      rw [hMv]
      simp only [createWebsocketHeader]
      rw [if_pos hle]
      have hrange4 : List.range 4 = [0, 1, 2, 3] := rfl
      simp only [decide_eq_true_eq, if_true, hrange4, List.map, Nat.shiftRight_eq_div_pow,
        andFF, List.cons_append, List.nil_append, List.cons.injEq, and_true]
      refine ⟨byte0_roundtrip b0 hb0 hr0, ?_, ?_, ?_, ?_, ?_⟩
      · exact byte1_low7_or b1 hb1 hm1
      · norm_num
        omega
      · norm_num
        omega
      · norm_num
        omega
      · norm_num
        omega
  · rw [if_neg hle] at hparse
    by_cases h126 : b1 &&& 0x7F = 126
    · -- 16-bit extended length
      rw [if_pos h126] at hparse
      have hl4 : ¬ ((b0 :: b1 :: rest).length < 4) := by
        intro hcon
        rw [if_pos hcon] at hparse
        exact absurd hparse (by simp)
      rw [if_neg hl4] at hparse
      simp only [finishParseHeader] at hparse
      cases hmb : decide (b1 &&& 0x80 ≠ 0) with
      | false =>
        have hm0 : b1 &&& 0x80 = 0 := not_ne_iff.mp (of_decide_eq_false hmb)
        have hb1v : b1 = 126 := byte1_eq126 b1 hb1 h126 hm0
        rw [hmb, if_neg (by simp)] at hparse
        simp only [Option.some.injEq, ParseResult.header.injEq, WsHeader.mk.injEq] at hparse
        obtain ⟨hf, ho, hp, hm, hmk, hoff⟩ := hparse
        subst hf ho hp hm hmk hoff
        rcases rest with _ | ⟨d2, _ | ⟨d3, r5⟩⟩ <;>
          simp only [List.length_cons, List.length_nil] at hexact <;> try omega
        have hr5 : r5 = [] := by
          exact List.eq_nil_of_length_eq_zero (by omega)
        subst hr5
        have hd2 : d2 < 256 := hbytes d2 (by simp)
        have hd3 : d3 < 256 := hbytes d3 (by simp)
        have hpv : extPayloadLen (List.take 2 (List.drop 2 (b0 :: b1 :: d2 :: d3 :: []))) =
            256 * d2 + d3 := by
          have hsl : List.take 2 (List.drop 2 (b0 :: b1 :: d2 :: d3 :: [])) = [d2, d3] := by
            simp
          rw [hsl]
          unfold extPayloadLen
          rw [foldl_shl8 [d2, d3] (by
            intro b hb
            simp at hb
            rcases hb with hcase | hcase <;> omega) 0]
          simp [List.foldl]
        rw [hpv] at hshort126 ⊢
        have hgt : 125 < 256 * d2 + d3 := hshort126 h126
        simp only [createWebsocketHeader]
        rw [if_neg (by simp only [MAX_DEFAULT_PAYLOAD_LENGTH]; omega),
          if_pos (by omega : 256 * d2 + d3 ≤ 0xFFFF)]
        simp only [decide_eq_true_eq, Bool.false_eq_true, if_false, List.append_nil,
          Nat.shiftRight_eq_div_pow, andFF, List.cons.injEq, and_true]
        refine ⟨byte0_roundtrip b0 hb0 hr0, ?_, ?_, ?_⟩
        · rw [Nat.or_zero, hb1v]
        · norm_num
          omega
        · omega
      | true =>
        have hm1 : b1 &&& 0x80 ≠ 0 := of_decide_eq_true (hmb ▸ rfl)
        have hb1v : b1 = 254 := byte1_eq254 b1 hb1 h126 hm1
        rw [hmb, if_pos rfl] at hparse
        have hl8 : ¬ ((b0 :: b1 :: rest).length < 2 + 2 + 4) := by
          intro hcon
          rw [if_pos hcon] at hparse
          exact absurd hparse (by simp)
        rw [if_neg hl8] at hparse
        simp only [Option.some.injEq, ParseResult.header.injEq, WsHeader.mk.injEq] at hparse
        obtain ⟨hf, ho, hp, hm, hmk, hoff⟩ := hparse
        subst hf ho hp hm hmk hoff
        rcases rest with _ | ⟨d2, _ | ⟨d3, _ | ⟨m0, _ | ⟨m1, _ | ⟨m2, _ | ⟨m3, r7⟩⟩⟩⟩⟩⟩ <;>
          simp only [List.length_cons, List.length_nil] at hexact <;> try omega
        have hr7 : r7 = [] := by
          exact List.eq_nil_of_length_eq_zero (by omega)
        subst hr7
        have hd2 : d2 < 256 := hbytes d2 (by simp)
        have hd3 : d3 < 256 := hbytes d3 (by simp)
        have hm0' : m0 < 256 := hbytes m0 (by simp)
        have hm1' : m1 < 256 := hbytes m1 (by simp)
        have hm2' : m2 < 256 := hbytes m2 (by simp)
        have hm3' : m3 < 256 := hbytes m3 (by simp)
        have hpv : extPayloadLen (List.take 2 (List.drop 2
            (b0 :: b1 :: d2 :: d3 :: m0 :: m1 :: m2 :: m3 :: []))) = 256 * d2 + d3 := by
          have hsl : List.take 2 (List.drop 2
              (b0 :: b1 :: d2 :: d3 :: m0 :: m1 :: m2 :: m3 :: [])) = [d2, d3] := by
            simp
          rw [hsl]
          unfold extPayloadLen
          rw [foldl_shl8 [d2, d3] (by
            intro b hb
            simp at hb
            rcases hb with hcase | hcase <;> omega) 0]
          simp [List.foldl]
        rw [hpv] at hshort126 ⊢
        have hgt : 125 < 256 * d2 + d3 := hshort126 h126
        have hMv : maskToNat [List.getD (b0 :: b1 :: d2 :: d3 :: m0 :: m1 :: m2 :: m3 :: [])
            (2 + 2) 0,
            List.getD (b0 :: b1 :: d2 :: d3 :: m0 :: m1 :: m2 :: m3 :: []) (2 + 2 + 1) 0,
            List.getD (b0 :: b1 :: d2 :: d3 :: m0 :: m1 :: m2 :: m3 :: []) (2 + 2 + 2) 0,
            List.getD (b0 :: b1 :: d2 :: d3 :: m0 :: m1 :: m2 :: m3 :: []) (2 + 2 + 3) 0] =
            256 * (256 * (256 * m0 + m1) + m2) + m3 := by
          have hg : [List.getD (b0 :: b1 :: d2 :: d3 :: m0 :: m1 :: m2 :: m3 :: []) (2 + 2) 0,
              List.getD (b0 :: b1 :: d2 :: d3 :: m0 :: m1 :: m2 :: m3 :: []) (2 + 2 + 1) 0,
              List.getD (b0 :: b1 :: d2 :: d3 :: m0 :: m1 :: m2 :: m3 :: []) (2 + 2 + 2) 0,
              List.getD (b0 :: b1 :: d2 :: d3 :: m0 :: m1 :: m2 :: m3 :: []) (2 + 2 + 3) 0] =
              [m0, m1, m2, m3] := by
            simp [List.getD]
          rw [hg]
          unfold maskToNat
          rw [foldl_shl8 [m0, m1, m2, m3] (by
            intro b hb
            simp at hb
            rcases hb with hcase | hcase | hcase | hcase <;> omega) 0]
          simp [List.foldl]
        rw [hMv]
        simp only [createWebsocketHeader]
        rw [if_neg (by simp only [MAX_DEFAULT_PAYLOAD_LENGTH]; omega),
          if_pos (by omega : 256 * d2 + d3 ≤ 0xFFFF)]
        have hrange4 : List.range 4 = [0, 1, 2, 3] := rfl
        simp only [decide_eq_true_eq, if_true, hrange4, List.map,
          Nat.shiftRight_eq_div_pow, andFF, List.cons_append, List.nil_append,
          List.cons.injEq, and_true]
        refine ⟨byte0_roundtrip b0 hb0 hr0, ?_, ?_, ?_, ?_, ?_, ?_, ?_⟩
        · rw [hb1v]
          decide
        · norm_num
          omega
        · omega
        · norm_num
          omega
        · norm_num
          omega
        · norm_num
          omega
        · norm_num
          omega
    · -- 64-bit extended length
      rw [if_neg h126] at hparse
      have hl10 : ¬ ((b0 :: b1 :: rest).length < 10) := by
        intro hcon
        rw [if_pos hcon] at hparse
        exact absurd hparse (by simp)
      rw [if_neg hl10] at hparse
      simp only [finishParseHeader] at hparse
      have h127 : b1 &&& 0x7F = 127 := by
        have hlt : b1 &&& 0x7F < 128 := by
          have : b1 &&& 0x7F ≤ 0x7F := Nat.and_le_right
          omega
        simp only [MAX_DEFAULT_PAYLOAD_LENGTH] at hle
        omega
      cases hmb : decide (b1 &&& 0x80 ≠ 0) with
      | false =>
        have hm0 : b1 &&& 0x80 = 0 := not_ne_iff.mp (of_decide_eq_false hmb)
        have hb1v : b1 = 127 := byte1_eq127 b1 hb1 h127 hm0
        rw [hmb, if_neg (by simp)] at hparse
        simp only [Option.some.injEq, ParseResult.header.injEq, WsHeader.mk.injEq] at hparse
        obtain ⟨hf, ho, hp, hm, hmk, hoff⟩ := hparse
        subst hf ho hp hm hmk hoff
        rcases rest with _ | ⟨d2, _ | ⟨d3, _ | ⟨d4, _ | ⟨d5, _ | ⟨d6, _ | ⟨d7, _ |
          ⟨d8, _ | ⟨d9, r9⟩⟩⟩⟩⟩⟩⟩⟩ <;>
          simp only [List.length_cons, List.length_nil] at hexact <;> try omega
        have hr9 : r9 = [] := by
          exact List.eq_nil_of_length_eq_zero (by omega)
        subst hr9
        have hd2 : d2 < 256 := hbytes d2 (by simp)
        have hd3 : d3 < 256 := hbytes d3 (by simp)
        have hd4 : d4 < 256 := hbytes d4 (by simp)
        have hd5 : d5 < 256 := hbytes d5 (by simp)
        have hd6 : d6 < 256 := hbytes d6 (by simp)
        have hd7 : d7 < 256 := hbytes d7 (by simp)
        have hd8 : d8 < 256 := hbytes d8 (by simp)
        have hd9 : d9 < 256 := hbytes d9 (by simp)
        have hpv : extPayloadLen (List.take 8 (List.drop 2
            (b0 :: b1 :: d2 :: d3 :: d4 :: d5 :: d6 :: d7 :: d8 :: d9 :: []))) =
            256 * (256 * (256 * (256 * (256 * (256 * (256 * d2 + d3) + d4) + d5) + d6) +
              d7) + d8) + d9 := by
          have hsl : List.take 8 (List.drop 2
              (b0 :: b1 :: d2 :: d3 :: d4 :: d5 :: d6 :: d7 :: d8 :: d9 :: [])) =
              [d2, d3, d4, d5, d6, d7, d8, d9] := by
            simp
          rw [hsl]
          unfold extPayloadLen
          rw [foldl_shl8 [d2, d3, d4, d5, d6, d7, d8, d9] (by
            intro b hb
            simp at hb
            rcases hb with hcase | hcase | hcase | hcase | hcase | hcase | hcase | hcase <;>
              omega) 0]
          simp [List.foldl]
        rw [hpv] at hshort127 ⊢
        have hgt : 65535 < 256 * (256 * (256 * (256 * (256 * (256 * (256 * d2 + d3) + d4) +
            d5) + d6) + d7) + d8) + d9 := hshort127 h127
        simp only [createWebsocketHeader]
        rw [if_neg (by simp only [MAX_DEFAULT_PAYLOAD_LENGTH]; omega),
          if_neg (by omega : ¬ (256 * (256 * (256 * (256 * (256 * (256 * (256 * d2 + d3) +
            d4) + d5) + d6) + d7) + d8) + d9 ≤ 0xFFFF))]
        have hrange8 : List.range 8 = [0, 1, 2, 3, 4, 5, 6, 7] := rfl
        simp only [decide_eq_true_eq, Bool.false_eq_true, if_false, hrange8, List.map,
          Nat.shiftRight_eq_div_pow, andFF, List.cons_append, List.nil_append,
          List.append_nil, List.cons.injEq, and_true]
        refine ⟨byte0_roundtrip b0 hb0 hr0, ?_, ?_, ?_, ?_, ?_, ?_, ?_, ?_, ?_⟩
        · rw [Nat.or_zero, hb1v]
        · norm_num
          omega
        · norm_num
          omega
        · norm_num
          omega
        · norm_num
          omega
        · norm_num
          omega
        · norm_num
          omega
        · norm_num
          omega
        · omega
      | true =>
        have hm1 : b1 &&& 0x80 ≠ 0 := of_decide_eq_true (hmb ▸ rfl)
        have hb1v : b1 = 255 := byte1_eq255 b1 hb1 h127 hm1
        rw [hmb, if_pos rfl] at hparse
        have hl14 : ¬ ((b0 :: b1 :: rest).length < 2 + 8 + 4) := by
          intro hcon
          rw [if_pos hcon] at hparse
          exact absurd hparse (by simp)
        rw [if_neg hl14] at hparse
        simp only [Option.some.injEq, ParseResult.header.injEq, WsHeader.mk.injEq] at hparse
        obtain ⟨hf, ho, hp, hm, hmk, hoff⟩ := hparse
        subst hf ho hp hm hmk hoff
        rcases rest with _ | ⟨d2, _ | ⟨d3, _ | ⟨d4, _ | ⟨d5, _ | ⟨d6, _ | ⟨d7, _ |
          ⟨d8, _ | ⟨d9, _ | ⟨m0, _ | ⟨m1, _ | ⟨m2, _ | ⟨m3, r13⟩⟩⟩⟩⟩⟩⟩⟩⟩⟩⟩⟩ <;>
          simp only [List.length_cons, List.length_nil] at hexact <;> try omega
        have hr13 : r13 = [] := by
          exact List.eq_nil_of_length_eq_zero (by omega)
        subst hr13
        have hd2 : d2 < 256 := hbytes d2 (by simp)
        have hd3 : d3 < 256 := hbytes d3 (by simp)
        have hd4 : d4 < 256 := hbytes d4 (by simp)
        have hd5 : d5 < 256 := hbytes d5 (by simp)
        have hd6 : d6 < 256 := hbytes d6 (by simp)
        have hd7 : d7 < 256 := hbytes d7 (by simp)
        have hd8 : d8 < 256 := hbytes d8 (by simp)
        have hd9 : d9 < 256 := hbytes d9 (by simp)
        have hm0' : m0 < 256 := hbytes m0 (by simp)
        have hm1' : m1 < 256 := hbytes m1 (by simp)
        have hm2' : m2 < 256 := hbytes m2 (by simp)
        have hm3' : m3 < 256 := hbytes m3 (by simp)
        have hpv : extPayloadLen (List.take 8 (List.drop 2
            (b0 :: b1 :: d2 :: d3 :: d4 :: d5 :: d6 :: d7 :: d8 :: d9 ::
              m0 :: m1 :: m2 :: m3 :: []))) =
            256 * (256 * (256 * (256 * (256 * (256 * (256 * d2 + d3) + d4) + d5) + d6) +
              d7) + d8) + d9 := by
          have hsl : List.take 8 (List.drop 2
              (b0 :: b1 :: d2 :: d3 :: d4 :: d5 :: d6 :: d7 :: d8 :: d9 ::
                m0 :: m1 :: m2 :: m3 :: [])) = [d2, d3, d4, d5, d6, d7, d8, d9] := by
            simp
          rw [hsl]
          unfold extPayloadLen
          rw [foldl_shl8 [d2, d3, d4, d5, d6, d7, d8, d9] (by
            intro b hb
            simp at hb
            rcases hb with hcase | hcase | hcase | hcase | hcase | hcase | hcase | hcase <;>
              omega) 0]
          simp [List.foldl]
        rw [hpv] at hshort127 ⊢
        have hgt : 65535 < 256 * (256 * (256 * (256 * (256 * (256 * (256 * d2 + d3) + d4) +
            d5) + d6) + d7) + d8) + d9 := hshort127 h127
        have hMv : maskToNat [List.getD (b0 :: b1 :: d2 :: d3 :: d4 :: d5 :: d6 :: d7 ::
            d8 :: d9 :: m0 :: m1 :: m2 :: m3 :: []) (2 + 8) 0,
            List.getD (b0 :: b1 :: d2 :: d3 :: d4 :: d5 :: d6 :: d7 :: d8 :: d9 ::
              m0 :: m1 :: m2 :: m3 :: []) (2 + 8 + 1) 0,
            List.getD (b0 :: b1 :: d2 :: d3 :: d4 :: d5 :: d6 :: d7 :: d8 :: d9 ::
              m0 :: m1 :: m2 :: m3 :: []) (2 + 8 + 2) 0,
            List.getD (b0 :: b1 :: d2 :: d3 :: d4 :: d5 :: d6 :: d7 :: d8 :: d9 ::
              m0 :: m1 :: m2 :: m3 :: []) (2 + 8 + 3) 0] =
            256 * (256 * (256 * m0 + m1) + m2) + m3 := by
          have hg : [List.getD (b0 :: b1 :: d2 :: d3 :: d4 :: d5 :: d6 :: d7 :: d8 :: d9 ::
              m0 :: m1 :: m2 :: m3 :: []) (2 + 8) 0,
              List.getD (b0 :: b1 :: d2 :: d3 :: d4 :: d5 :: d6 :: d7 :: d8 :: d9 ::
                m0 :: m1 :: m2 :: m3 :: []) (2 + 8 + 1) 0,
              List.getD (b0 :: b1 :: d2 :: d3 :: d4 :: d5 :: d6 :: d7 :: d8 :: d9 ::
                m0 :: m1 :: m2 :: m3 :: []) (2 + 8 + 2) 0,
              List.getD (b0 :: b1 :: d2 :: d3 :: d4 :: d5 :: d6 :: d7 :: d8 :: d9 ::
                m0 :: m1 :: m2 :: m3 :: []) (2 + 8 + 3) 0] = [m0, m1, m2, m3] := by
            simp [List.getD]
          rw [hg]
          unfold maskToNat
          rw [foldl_shl8 [m0, m1, m2, m3] (by
            intro b hb
            simp at hb
            rcases hb with hcase | hcase | hcase | hcase <;> omega) 0]
          simp [List.foldl]
        rw [hMv]
        simp only [createWebsocketHeader]
        rw [if_neg (by simp only [MAX_DEFAULT_PAYLOAD_LENGTH]; omega),
          if_neg (by omega : ¬ (256 * (256 * (256 * (256 * (256 * (256 * (256 * d2 + d3) +
            d4) + d5) + d6) + d7) + d8) + d9 ≤ 0xFFFF))]
        have hrange8 : List.range 8 = [0, 1, 2, 3, 4, 5, 6, 7] := rfl
        have hrange4 : List.range 4 = [0, 1, 2, 3] := rfl
        simp only [decide_eq_true_eq, if_true, hrange8, hrange4, List.map,
          Nat.shiftRight_eq_div_pow, andFF, List.cons_append, List.nil_append,
          List.cons.injEq, and_true]
        refine ⟨byte0_roundtrip b0 hb0 hr0, ?_, ?_, ?_, ?_, ?_, ?_, ?_, ?_, ?_, ?_, ?_,
          ?_, ?_⟩
        · rw [hb1v]
          decide
        · norm_num
          omega
        · norm_num
          omega
        · norm_num
          omega
        · norm_num
          omega
        · norm_num
          omega
        · norm_num
          omega
        · norm_num
          omega
        · omega
        · norm_num
          omega
        · norm_num
          omega
        · norm_num
          omega
        · norm_num
          omega

/-- Witness for C5 at a concrete masked TEXT header with a 5-byte
payload. -/
theorem c5_encode_decode_roundtrip_witness :
    createWebsocketHeader 1 true true (maskToNat [9, 8, 7, 6]) 5 = [0x81, 0x85, 9, 8, 7, 6] :=
  by
  have hp : parseWebsocketHeader [0x81, 0x85, 9, 8, 7, 6] =
      some (ParseResult.header
        { fin := true, opcode := 1, payloadLength := 5, masked := true,
          mask := [9, 8, 7, 6], payloadStartOffset := 6 }) := by decide
  exact c5_encode_decode_roundtrip [0x81, 0x85, 9, 8, 7, 6]
    { fin := true, opcode := 1, payloadLength := 5, masked := true,
      mask := [9, 8, 7, 6], payloadStartOffset := 6 }
    (by decide) hp (by decide) (by decide) (by decide)

end Ezws
